import Mathlib

/-!
Shallow embedding of the blog-backend post controller
(src/unnamed/part_000: addPost, updatePost, deletePost) and the parts of
its environment that the controller observes: request bodies whose fields
are JavaScript values, the external JSON parser, the MongoDB-backed post
store, and the authenticated user attached by the auth middleware.

JavaScript request-body fields are modelled as `Option Json` (`none` is
`undefined`, i.e. the field is absent from the body).  The external
`JSON.parse` builtin is modelled as a parameter
`parse : String → Option Json` of the operations (`none` = parse throws).
The document store is an association list from id strings to posts;
`Post.findById`, `save`, `create` and `findByIdAndDelete` become the
corresponding list operations.
-/

set_option autoImplicit false

namespace Blog

/-- A JavaScript/JSON value, as produced by `JSON.parse` or carried in a
parsed request body. -/
inductive Json where
  | null : Json
  | bool (b : Bool) : Json
  | num (n : Int) : Json
  | str (s : String) : Json
  | arr (xs : List Json) : Json
  | obj (kvs : List (String × Json)) : Json
  deriving Repr

/-- JavaScript truthiness of a value (`if (v)`): `null`, `false`, `0` and
the empty string are falsy; arrays and objects are always truthy. -/
def jsTruthy : Json → Bool
  | .null => false
  | .bool b => b
  | .num n => n != 0
  | .str s => s != ""
  | .arr _ => true
  | .obj _ => true

/-- Truthiness of a possibly-absent body field (`undefined` is falsy). -/
def truthyOpt : Option Json → Bool
  | none => false
  | some j => jsTruthy j

/-- Whether a value is a string (`typeof v === "string"`). -/
def Json.isStr : Json → Bool
  | .str _ => true
  | _ => false

mutual

/-- JavaScript `toString()` of a value (arrays join their elements with
commas, objects print as `[object Object]`). -/
def jsToString : Json → String
  | .null => "null"
  | .bool b => cond b "true" "false"
  | .num n => toString n
  | .str s => s
  | .arr xs => jsToStringList xs
  | .obj _ => "[object Object]"

/-- Comma-join of the `toString()` of each element, as `Array.toString`. -/
def jsToStringList : List Json → String
  | [] => ""
  | [x] => jsToString x
  | x :: xs => jsToString x ++ "," ++ jsToStringList xs

end

/-- The `user` attached to an `AuthRequest` by the auth middleware. -/
structure AuthUser where
  id : String
  role : String
  deriving Repr

/-- The destructured request body of `addPost` / `updatePost`:
`const { title, slug, content, category, tags, seo, published } = req.body`.
Each field is a JavaScript value or `undefined`. -/
structure Body where
  title : Option Json
  slug : Option Json
  content : Option Json
  category : Option Json
  tags : Option Json
  seo : Option Json
  published : Option Json
  deriving Repr

/-- A stored post document.  `author` is the referenced user id as a string
(the code only ever compares `existing.author.toString()` with the caller
id and copies it around).  `published` is a `Bool` because both writes to
it coerce with `=== "true" || === true`. -/
structure Post where
  title : Json
  slug : Json
  content : Json
  author : String
  category : Json
  tags : Json
  seo : Json
  featuredImage : Option String
  published : Bool
  deriving Repr

/-- The posts collection: an association list from document id to post. -/
abbrev Store := List (String × Post)

/-- Model of `Post.findById`. -/
def findPost (st : Store) (id : String) : Option Post :=
  (st.find? (fun e => e.fst == id)).map Prod.snd

/-- Model of `existing.save()`: write the document back under its id. -/
def savePost (st : Store) (id : String) (p : Post) : Store :=
  st.map (fun e => if e.fst == id then (id, p) else e)

/-- Model of `Post.create`: the store gains a document under a fresh id. -/
def insertPost (st : Store) (id : String) (p : Post) : Store :=
  st ++ [(id, p)]

/-- Model of `Post.findByIdAndDelete`. -/
def deleteById (st : Store) (id : String) : Store :=
  st.filter (fun e => e.fst != id)

/-- Model of `mongoose.isValidObjectId`: a 24-character hex string. -/
def isValidObjectId (s : String) : Bool :=
  s.length == 24 && s.toList.all fun c =>
    (Char.ofNat 48 ≤ c && c ≤ Char.ofNat 57)
      || (Char.ofNat 97 ≤ c && c ≤ Char.ofNat 102)
      || (Char.ofNat 65 ≤ c && c ≤ Char.ofNat 70)

/-- An HTTP response from the controller: either a JSON rendering of a post
document with a status, or a status with an `error`/`message` text. -/
inductive Resp where
  | post (status : Nat) (p : Post) : Resp
  | message (status : Nat) (msg : String) : Resp
  deriving Repr

/-- The HTTP status code of a response. -/
def Resp.status : Resp → Nat
  | .post s _ => s
  | .message s _ => s

/-- The post document carried by a response, when there is one. -/
def Resp.payload : Resp → Option Post
  | .post _ p => some p
  | .message _ _ => none

/-- Modelled from the spec: the slug generator (`generateSlug` in
`utils/slugfy`, whose source is not included) maps a title to a URL-safe
slug — lowercased, whitespace replaced by hyphens (spec §4.3, and the §8
example mapping the title "Hello World" to the slug "hello-world"). -/
def generateSlug (title : String) : String :=
  String.mk (title.toList.map fun c => if c = ' ' then '-' else c.toLower)

/-- The hardcoded fallback author id used by `addPost` when no caller
identity is available. -/
def fallbackAuthorId : String := "68ae1145a564344c2e6e03fb"

/-- The coercion `published === "true" || published === true` applied by
both `addPost` and `updatePost`. -/
def pubCoerce : Option Json → Bool
  | some (.str s) => s == "true"
  | some (.bool b) => b
  | _ => false

/-- The required-field check of `addPost`:
`if (!title || !content || !category || !seo)`. -/
def requiredMissing (body : Body) : Bool :=
  !truthyOpt body.title || !truthyOpt body.content
    || !truthyOpt body.category || !truthyOpt body.seo

/-- Slug resolution in `addPost`:
`const finalSlug = slug ? slug.toString() : generateSlug(title)`. -/
def finalSlug (body : Body) : String :=
  if truthyOpt body.slug then jsToString (body.slug.getD .null)
  else generateSlug (jsToString (body.title.getD .null))

/-- Tag parsing in `addPost`: `parsedTags` starts as `[]`; a truthy string
is `JSON.parse`d (a throw yields the "Invalid tags JSON" 400), a truthy
non-string is taken as-is. -/
def parseTagsField (parse : String → Option Json) (tags : Option Json) :
    Except String Json :=
  if truthyOpt tags then
    match tags with
    | some (.str s) =>
      match parse s with
      | none => .error "Invalid tags JSON"
      | some j => .ok j
    | some j => .ok j
    | none => .ok (.arr [])
  else .ok (.arr [])

/-- SEO parsing in `addPost`: a string is `JSON.parse`d (a throw yields the
"Invalid SEO JSON" 400), anything else is taken as-is. -/
def parseSeoField (parse : String → Option Json) (seo : Option Json) :
    Except String Json :=
  match seo with
  | some (.str s) =>
    match parse s with
    | none => .error "Invalid SEO JSON"
    | some j => .ok j
  | some j => .ok j
  | none => .ok .null

/-- `author: req.user?.id ? req.user.id : "68ae1145a564344c2e6e03fb"`. -/
def authorOf : Option AuthUser → String
  | some u => if u.id != "" then u.id else fallbackAuthorId
  | none => fallbackAuthorId

/-- The document handed to `Post.create` by `addPost`. -/
def createdPost (user : Option AuthUser) (file : Option String) (body : Body)
    (parsedTags parsedSeo : Json) : Post :=
  { title := body.title.getD .null
    slug := .str (finalSlug body)
    content := body.content.getD .null
    author := authorOf user
    category := body.category.getD .null
    tags := parsedTags
    seo := parsedSeo
    featuredImage := file
    published := pubCoerce body.published }

/-- Model of `addPost` (POST /api/posts).  `parse` embeds the external
`JSON.parse`, `file` is `req.file?.path` from the upload middleware,
`newId` is the id the store assigns to the created document.  Returns the
HTTP response and the store after the request. -/
def addPost (parse : String → Option Json) (user : Option AuthUser)
    (file : Option String) (body : Body) (newId : String) (st : Store) :
    Resp × Store :=
  if requiredMissing body then
    (.message 400 "title, content, category and seo are required", st)
  else
    match parseTagsField parse body.tags with
    | .error e => (.message 400 e, st)
    | .ok parsedTags =>
      match parseSeoField parse body.seo with
      | .error e => (.message 400 e, st)
      | .ok parsedSeo =>
        let post := createdPost user file body parsedTags parsedSeo
        (.post 201 post, insertPost st newId post)

/-- `if (title) existing.title = title` (line 143). -/
def applyTitle (body : Body) (p : Post) : Post :=
  if truthyOpt body.title then { p with title := body.title.getD .null } else p

/-- `if (slug) existing.slug = slug` (line 144). -/
def applySlugField (body : Body) (p : Post) : Post :=
  if truthyOpt body.slug then { p with slug := body.slug.getD .null } else p

/-- `if (content) existing.content = content` (line 145). -/
def applyContent (body : Body) (p : Post) : Post :=
  if truthyOpt body.content then { p with content := body.content.getD .null }
  else p

/-- `if (category) existing.category = category` (line 146). -/
def applyCategory (body : Body) (p : Post) : Post :=
  if truthyOpt body.category then { p with category := body.category.getD .null }
  else p

/-- The four truthiness-guarded scalar assignments of `updatePost`
(lines 143-146), in source order. -/
def applyScalars (body : Body) (p : Post) : Post :=
  applyCategory body (applyContent body (applySlugField body (applyTitle body p)))

/-- Tag handling of `updatePost` (lines 149-157): a truthy string is
`JSON.parse`d into `existing.tags` (a throw returns the
"Invalid tags JSON" 400 before any save), a truthy non-string is assigned
as-is, a falsy field leaves the document alone. -/
def applyTags (parse : String → Option Json) (body : Body) (p : Post) :
    Except String Post :=
  if truthyOpt body.tags then
    match body.tags with
    | some (.str s) =>
      match parse s with
      | none => .error "Invalid tags JSON"
      | some j => .ok { p with tags := j }
    | some j => .ok { p with tags := j }
    | none => .ok p
  else .ok p

/-- SEO handling of `updatePost` (lines 160-168), same shape as the tags. -/
def applySeo (parse : String → Option Json) (body : Body) (p : Post) :
    Except String Post :=
  if truthyOpt body.seo then
    match body.seo with
    | some (.str s) =>
      match parse s with
      | none => .error "Invalid SEO JSON"
      | some j => .ok { p with seo := j }
    | some j => .ok { p with seo := j }
    | none => .ok p
  else .ok p

/-- `if (published !== undefined) existing.published = ...` (line 170). -/
def applyPub (body : Body) (p : Post) : Post :=
  if body.published.isSome then { p with published := pubCoerce body.published }
  else p

/-- Truthiness of `req.file?.path`: a path is present and non-empty. -/
def truthyPath : Option String → Bool
  | some f => f != ""
  | none => false

/-- `if (req.file?.path) existing.featuredImage = req.file.path`
(line 173): the path must be truthy, i.e. present and non-empty. -/
def applyFile (file : Option String) (p : Post) : Post :=
  if truthyPath file then { p with featuredImage := file } else p

/-- The field-application phase of `updatePost` (lines 141-173) on the
loaded document, in source order; an error is the 400 returned before
`existing.save()` runs. -/
def applyBody (parse : String → Option Json) (body : Body)
    (file : Option String) (p : Post) : Except String Post :=
  match applyTags parse body (applyScalars body p) with
  | .error e => .error e
  | .ok p2 =>
    match applySeo parse body p2 with
    | .error e => .error e
    | .ok p3 => .ok (applyFile file (applyPub body p3))

/-- Model of `updatePost` (PUT /api/posts/:id). -/
def updatePost (parse : String → Option Json) (user : Option AuthUser)
    (file : Option String) (id : String) (body : Body) (st : Store) :
    Resp × Store :=
  if !isValidObjectId id then (.message 400 "Invalid ID", st)
  else
    match findPost st id with
    | none => (.message 404 "Post not found", st)
    | some existing =>
      match user with
      | none => (.message 401 "Unauthorized", st)
      | some u =>
        if u.role != "admin" && existing.author != u.id then
          (.message 403 "Forbidden", st)
        else
          match applyBody parse body file existing with
          | .error e => (.message 400 e, st)
          | .ok updated => (.post 200 updated, savePost st id updated)

/-- Model of `deletePost` (DELETE /api/posts/:id). -/
def deletePost (user : Option AuthUser) (id : String) (st : Store) :
    Resp × Store :=
  if !isValidObjectId id then (.message 400 "Invalid ID", st)
  else
    match findPost st id with
    | none => (.message 404 "Post not found", st)
    | some existing =>
      match user with
      | none => (.message 401 "Unauthorized", st)
      | some u =>
        if u.role != "admin" && existing.author != u.id then
          (.message 403 "Forbidden", st)
        else (.message 200 "Post deleted", deleteById st id)

/-! Helper lemmas about the field-application phase of `updatePost`. -/

theorem applyTitle_eq (body : Body) (p : Post) :
    applyTitle body p =
      { p with title := if truthyOpt body.title then body.title.getD .null
                        else p.title } := by
  unfold applyTitle; split <;> rfl

theorem applySlugField_eq (body : Body) (p : Post) :
    applySlugField body p =
      { p with slug := if truthyOpt body.slug then body.slug.getD .null
                       else p.slug } := by
  unfold applySlugField; split <;> rfl

theorem applyContent_eq (body : Body) (p : Post) :
    applyContent body p =
      { p with content := if truthyOpt body.content then body.content.getD .null
                          else p.content } := by
  unfold applyContent; split <;> rfl

theorem applyCategory_eq (body : Body) (p : Post) :
    applyCategory body p =
      { p with category := if truthyOpt body.category then
                             body.category.getD .null
                           else p.category } := by
  unfold applyCategory; split <;> rfl

theorem applyScalars_eq (body : Body) (p : Post) :
    applyScalars body p =
      { p with
        title := if truthyOpt body.title then body.title.getD .null else p.title
        slug := if truthyOpt body.slug then body.slug.getD .null else p.slug
        content := if truthyOpt body.content then body.content.getD .null
                   else p.content
        category := if truthyOpt body.category then body.category.getD .null
                    else p.category } := by
  unfold applyScalars applyCategory applyContent applySlugField applyTitle
  split_ifs <;> rfl

theorem applyPub_eq (body : Body) (p : Post) :
    applyPub body p =
      { p with published := if body.published.isSome then pubCoerce body.published
                            else p.published } := by
  unfold applyPub; split <;> rfl

theorem applyFile_eq (file : Option String) (p : Post) :
    applyFile file p =
      { p with featuredImage := if truthyPath file then file
                                else p.featuredImage } := by
  unfold applyFile; split <;> rfl

theorem applyTags_ok_shape (parse : String → Option Json) (body : Body)
    (p q : Post) (h : applyTags parse body p = .ok q) :
    q = { p with tags := q.tags } := by
  unfold applyTags at h
  split at h
  · split at h
    · split at h
      · exact absurd h (by simp)
      · injection h with h; subst h; rfl
    · injection h with h; subst h; rfl
    · injection h with h; subst h; rfl
  · injection h with h; subst h; rfl

theorem applySeo_ok_shape (parse : String → Option Json) (body : Body)
    (p q : Post) (h : applySeo parse body p = .ok q) :
    q = { p with seo := q.seo } := by
  unfold applySeo at h
  split at h
  · split at h
    · split at h
      · exact absurd h (by simp)
      · injection h with h; subst h; rfl
    · injection h with h; subst h; rfl
    · injection h with h; subst h; rfl
  · injection h with h; subst h; rfl

theorem applyTags_of_falsy (parse : String → Option Json) (body : Body)
    (p : Post) (h : truthyOpt body.tags = false) :
    applyTags parse body p = .ok p := by
  unfold applyTags; simp [h]

theorem applySeo_of_falsy (parse : String → Option Json) (body : Body)
    (p : Post) (h : truthyOpt body.seo = false) :
    applySeo parse body p = .ok p := by
  unfold applySeo; simp [h]

theorem applyTags_of_str (parse : String → Option Json) (body : Body)
    (p : Post) (s : String) (j : Json) (hb : body.tags = some (.str s))
    (hs : s ≠ "") (hp : parse s = some j) :
    applyTags parse body p = .ok { p with tags := j } := by
  unfold applyTags
  rw [hb]
  simp [truthyOpt, jsTruthy, hs, hp]

theorem applyTags_of_str_bad (parse : String → Option Json) (body : Body)
    (p : Post) (s : String) (hb : body.tags = some (.str s))
    (hs : s ≠ "") (hp : parse s = none) :
    applyTags parse body p = .error "Invalid tags JSON" := by
  unfold applyTags
  rw [hb]
  simp [truthyOpt, jsTruthy, hs, hp]

theorem applyTags_of_val (parse : String → Option Json) (body : Body)
    (p : Post) (j : Json) (hb : body.tags = some j)
    (ht : jsTruthy j = true) (hstr : j.isStr = false) :
    applyTags parse body p = .ok { p with tags := j } := by
  unfold applyTags
  rw [hb]
  cases j <;> simp_all [truthyOpt, jsTruthy, Json.isStr]

theorem applySeo_of_str (parse : String → Option Json) (body : Body)
    (p : Post) (s : String) (j : Json) (hb : body.seo = some (.str s))
    (hs : s ≠ "") (hp : parse s = some j) :
    applySeo parse body p = .ok { p with seo := j } := by
  unfold applySeo
  rw [hb]
  simp [truthyOpt, jsTruthy, hs, hp]

theorem applySeo_of_str_bad (parse : String → Option Json) (body : Body)
    (p : Post) (s : String) (hb : body.seo = some (.str s))
    (hs : s ≠ "") (hp : parse s = none) :
    applySeo parse body p = .error "Invalid SEO JSON" := by
  unfold applySeo
  rw [hb]
  simp [truthyOpt, jsTruthy, hs, hp]

theorem applySeo_of_val (parse : String → Option Json) (body : Body)
    (p : Post) (j : Json) (hb : body.seo = some j)
    (ht : jsTruthy j = true) (hstr : j.isStr = false) :
    applySeo parse body p = .ok { p with seo := j } := by
  unfold applySeo
  rw [hb]
  cases j <;> simp_all [truthyOpt, jsTruthy, Json.isStr]

theorem applyBody_ok (parse : String → Option Json) (body : Body)
    (file : Option String) (p q : Post)
    (h : applyBody parse body file p = .ok q) :
    ∃ q2 q3, applyTags parse body (applyScalars body p) = .ok q2
      ∧ applySeo parse body q2 = .ok q3
      ∧ q = applyFile file (applyPub body q3) := by
  unfold applyBody at h
  split at h
  · exact absurd h (by simp)
  · next p2 ht =>
    split at h
    · exact absurd h (by simp)
    · next p3 hs =>
      injection h with h
      exact ⟨p2, p3, ht, hs, h.symm⟩

theorem applyBody_eq_ok (parse : String → Option Json) (body : Body)
    (file : Option String) (p q2 q3 : Post)
    (ht : applyTags parse body (applyScalars body p) = .ok q2)
    (hs : applySeo parse body q2 = .ok q3) :
    applyBody parse body file p = .ok (applyFile file (applyPub body q3)) := by
  unfold applyBody
  split
  · next e heq => rw [ht] at heq; cases heq
  · next p2 heq =>
    rw [ht] at heq
    injection heq with heq
    subst heq
    split
    · next e heq2 => rw [hs] at heq2; cases heq2
    · next p3 heq2 =>
      rw [hs] at heq2
      injection heq2 with heq2
      subst heq2
      rfl

theorem applyBody_tags_error (parse : String → Option Json) (body : Body)
    (file : Option String) (p : Post) (e : String)
    (ht : applyTags parse body (applyScalars body p) = .error e) :
    applyBody parse body file p = .error e := by
  unfold applyBody
  split
  · next e2 heq => rw [ht] at heq; injection heq with heq; rw [heq]
  · next p2 heq => rw [ht] at heq; cases heq

theorem applyBody_seo_error (parse : String → Option Json) (body : Body)
    (file : Option String) (p q2 : Post) (e : String)
    (ht : applyTags parse body (applyScalars body p) = .ok q2)
    (hs : applySeo parse body q2 = .error e) :
    applyBody parse body file p = .error e := by
  unfold applyBody
  split
  · next e2 heq => rw [ht] at heq; cases heq
  · next p2 heq =>
    rw [ht] at heq
    injection heq with heq
    subst heq
    split
    · next e2 heq2 => rw [hs] at heq2; injection heq2 with heq2; rw [heq2]
    · next p3 heq2 => rw [hs] at heq2; cases heq2

/-! Helper lemmas about the control flow of `updatePost` and `deletePost`. -/

theorem updatePost_authed (parse : String → Option Json) (u : AuthUser)
    (file : Option String) (id : String) (body : Body) (st : Store) (p : Post)
    (hid : isValidObjectId id = true) (hfind : findPost st id = some p)
    (hauth : (u.role != "admin" && p.author != u.id) = false) :
    updatePost parse (some u) file id body st =
      match applyBody parse body file p with
      | .error e => (.message 400 e, st)
      | .ok q => (.post 200 q, savePost st id q) := by
  unfold updatePost
  simp [hid, hfind, hauth]

theorem pubCoerce_true_iff (v : Option Json) :
    pubCoerce v = true ↔ v = some (.str "true") ∨ v = some (.bool true) := by
  unfold pubCoerce
  rcases v with _ | j
  · simp
  · cases j <;> simp

theorem findPost_deleteById (st : Store) (id : String) :
    findPost (deleteById st id) id = none := by
  unfold findPost deleteById
  have h : List.find? (fun e => e.fst == id) (st.filter fun e => e.fst != id)
      = none := by
    rw [List.find?_eq_none]
    intro x hx
    have hm := List.of_mem_filter hx
    simp only [bne_iff_ne, ne_eq] at hm
    simp [hm]
  rw [h]
  rfl

theorem parseTagsField_none (parse : String → Option Json) :
    parseTagsField parse none = .ok (.arr []) := rfl

theorem parseTagsField_str_bad (parse : String → Option Json) (s : String)
    (hs : s ≠ "") (hp : parse s = none) :
    parseTagsField parse (some (.str s)) = .error "Invalid tags JSON" := by
  unfold parseTagsField
  simp [truthyOpt, jsTruthy, hs, hp]

theorem parseSeoField_str_bad (parse : String → Option Json) (s : String)
    (hp : parse s = none) :
    parseSeoField parse (some (.str s)) = .error "Invalid SEO JSON" := by
  unfold parseSeoField
  simp [hp]

theorem addPost_ok (parse : String → Option Json) (user : Option AuthUser)
    (file : Option String) (body : Body) (newId : String) (st : Store)
    (jt js : Json) (hreq : requiredMissing body = false)
    (ht : parseTagsField parse body.tags = .ok jt)
    (hs : parseSeoField parse body.seo = .ok js) :
    addPost parse user file body newId st
      = (.post 201 (createdPost user file body jt js),
         insertPost st newId (createdPost user file body jt js)) := by
  unfold addPost
  simp [hreq, ht, hs]

theorem updatePost_ok (parse : String → Option Json) (u : AuthUser)
    (file : Option String) (id : String) (body : Body) (st : Store)
    (p q : Post)
    (hid : isValidObjectId id = true) (hfind : findPost st id = some p)
    (hauth : (u.role != "admin" && p.author != u.id) = false)
    (hap : applyBody parse body file p = .ok q) :
    updatePost parse (some u) file id body st
      = (.post 200 q, savePost st id q) := by
  rw [updatePost_authed parse u file id body st p hid hfind hauth, hap]

theorem applyTags_ok_frame (parse : String → Option Json) (body : Body)
    (p q : Post) (h : applyTags parse body p = .ok q) :
    q.title = p.title ∧ q.slug = p.slug ∧ q.content = p.content
      ∧ q.category = p.category ∧ q.author = p.author ∧ q.seo = p.seo
      ∧ q.featuredImage = p.featuredImage ∧ q.published = p.published := by
  have hsh := applyTags_ok_shape parse body p q h
  refine ⟨?_, ?_, ?_, ?_, ?_, ?_, ?_, ?_⟩ <;> rw [hsh]

theorem applySeo_ok_frame (parse : String → Option Json) (body : Body)
    (p q : Post) (h : applySeo parse body p = .ok q) :
    q.title = p.title ∧ q.slug = p.slug ∧ q.content = p.content
      ∧ q.category = p.category ∧ q.author = p.author ∧ q.tags = p.tags
      ∧ q.featuredImage = p.featuredImage ∧ q.published = p.published := by
  have hsh := applySeo_ok_shape parse body p q h
  refine ⟨?_, ?_, ?_, ?_, ?_, ?_, ?_, ?_⟩ <;> rw [hsh]

theorem applyBody_fields (parse : String → Option Json) (body : Body)
    (file : Option String) (p q : Post)
    (h : applyBody parse body file p = .ok q) :
    q.title = (if truthyOpt body.title then body.title.getD .null else p.title)
      ∧ q.slug = (if truthyOpt body.slug then body.slug.getD .null else p.slug)
      ∧ q.content
        = (if truthyOpt body.content then body.content.getD .null else p.content)
      ∧ q.category
        = (if truthyOpt body.category then body.category.getD .null
           else p.category)
      ∧ q.author = p.author
      ∧ q.published
        = (if body.published.isSome then pubCoerce body.published
           else p.published)
      ∧ q.featuredImage
        = (if truthyPath file then file else p.featuredImage) := by
  obtain ⟨q2, q3, ht, hs, hq⟩ := applyBody_ok parse body file p q h
  obtain ⟨t1, t2, t3, t4, t5, _, t7, t8⟩ :=
    applyTags_ok_frame parse body (applyScalars body p) q2 ht
  obtain ⟨s1, s2, s3, s4, s5, _, s7, s8⟩ := applySeo_ok_frame parse body q2 q3 hs
  subst hq
  rw [applyScalars_eq] at t1 t2 t3 t4 t5 t7 t8
  refine ⟨?_, ?_, ?_, ?_, ?_, ?_, ?_⟩ <;>
    simp [applyFile_eq, applyPub_eq, s1, s2, s3, s4, s5, s7, s8,
      t1, t2, t3, t4, t5, t7, t8]

theorem applyBody_ok_tags (parse : String → Option Json) (body : Body)
    (file : Option String) (p q : Post)
    (h : applyBody parse body file p = .ok q) :
    (truthyOpt body.tags = false → q.tags = p.tags)
      ∧ (∀ s j, body.tags = some (.str s) → s ≠ "" → parse s = some j →
        q.tags = j)
      ∧ (∀ j, body.tags = some j → jsTruthy j = true → j.isStr = false →
        q.tags = j) := by
  obtain ⟨q2, q3, ht, hs, hq⟩ := applyBody_ok parse body file p q h
  obtain ⟨_, _, _, _, _, _, _, _⟩ := applySeo_ok_frame parse body q2 q3 hs
  have hseo := applySeo_ok_shape parse body q2 q3 hs
  have hq3 : q3.tags = q2.tags := by rw [hseo]
  have hqq : q.tags = q2.tags := by
    subst hq; rw [applyFile_eq, applyPub_eq]; simpa using hq3
  refine ⟨?_, ?_, ?_⟩
  · intro hf
    rw [applyTags_of_falsy parse body (applyScalars body p) hf] at ht
    injection ht with ht
    rw [hqq, ← ht, applyScalars_eq]
  · intro s j hb hsne hp
    rw [applyTags_of_str parse body (applyScalars body p) s j hb hsne hp] at ht
    injection ht with ht
    rw [hqq, ← ht]
  · intro j hb htr hstr
    rw [applyTags_of_val parse body (applyScalars body p) j hb htr hstr] at ht
    injection ht with ht
    rw [hqq, ← ht]

theorem applyBody_ok_seo (parse : String → Option Json) (body : Body)
    (file : Option String) (p q : Post)
    (h : applyBody parse body file p = .ok q) :
    (truthyOpt body.seo = false → q.seo = p.seo)
      ∧ (∀ s j, body.seo = some (.str s) → s ≠ "" → parse s = some j →
        q.seo = j)
      ∧ (∀ j, body.seo = some j → jsTruthy j = true → j.isStr = false →
        q.seo = j) := by
  obtain ⟨q2, q3, ht, hs, hq⟩ := applyBody_ok parse body file p q h
  have htags := applyTags_ok_shape parse body (applyScalars body p) q2 ht
  have hq2 : q2.seo = p.seo := by
    rw [htags, applyScalars_eq]
  have hqq : q.seo = q3.seo := by
    subst hq; rw [applyFile_eq, applyPub_eq]
  refine ⟨?_, ?_, ?_⟩
  · intro hf
    rw [applySeo_of_falsy parse body q2 hf] at hs
    injection hs with hs
    rw [hqq, ← hs]
    exact hq2
  · intro s j hb hsne hp
    rw [applySeo_of_str parse body q2 s j hb hsne hp] at hs
    injection hs with hs
    rw [hqq, ← hs]
  · intro j hb htr hstr
    rw [applySeo_of_val parse body q2 j hb htr hstr] at hs
    injection hs with hs
    rw [hqq, ← hs]

/-! Concrete fixtures for evaluating the operations on closed inputs. -/

/-- An instance of the external JSON parser used on concrete inputs: it
recognises a handful of JSON literals and rejects everything else.  On
every string the concrete theorems below feed to it ("", "bad json", "[]",
"true", ...) it agrees with the JavaScript `JSON.parse`; in particular
`JSON.parse("")` throws, so the empty string maps to `none`. -/
def jsonParseLite : String → Option Json
  | "null" => some .null
  | "true" => some (.bool true)
  | "false" => some (.bool false)
  | "[]" => some (.arr [])
  | _ => none

/-- A well-formed document id. -/
def sampleId : String := "0123456789abcdef01234567"

/-- A stored post used by the concrete theorems. -/
def samplePost : Post :=
  { title := .str "Old title"
    slug := .str "old-title"
    content := .str "Old content"
    author := "aaaaaaaaaaaaaaaaaaaaaaaa"
    category := .str "cat0"
    tags := .arr []
    seo := .obj []
    featuredImage := none
    published := false }

/-- A store holding exactly `samplePost` under `sampleId`. -/
def sampleStore : Store := [(sampleId, samplePost)]

/-- The author of `samplePost`, in the author (non-admin) role. -/
def ownerUser : AuthUser := { id := "aaaaaaaaaaaaaaaaaaaaaaaa", role := "author" }

/-- A non-admin caller who does not own `samplePost`. -/
def strangerUser : AuthUser :=
  { id := "cccccccccccccccccccccccc", role := "author" }

/-- A request body with every field absent. -/
def emptyBody : Body :=
  { title := none, slug := none, content := none, category := none,
    tags := none, seo := none, published := none }

/-! Claim theorems. -/

/-- C1: for every update or delete request on an existing post by an
authenticated caller whose role is not admin and whose id differs from the
post author, the operation returns 403 Forbidden and the store (hence the
stored post, every field of it) is unchanged. -/
theorem c1_forbidden_leaves_store (parse : String → Option Json)
    (u : AuthUser) (file : Option String) (id : String) (body : Body)
    (st : Store) (p : Post)
    (hid : isValidObjectId id = true) (hfind : findPost st id = some p)
    (hrole : u.role ≠ "admin") (hown : u.id ≠ p.author) :
    updatePost parse (some u) file id body st = (.message 403 "Forbidden", st)
      ∧ deletePost (some u) id st = (.message 403 "Forbidden", st) := by
  have hb : (u.role != "admin" && p.author != u.id) = true := by
    simp [hrole, hown.symm]
  constructor
  · unfold updatePost; simp [hid, hfind, hb]
  · unfold deletePost; simp [hid, hfind, hb]

/-- C1 witness: a concrete non-owner, non-admin caller is refused with 403
on update and delete of the sample post, and the store is untouched. -/
theorem c1_forbidden_leaves_store_witness :
    updatePost jsonParseLite (some strangerUser) none sampleId emptyBody
        sampleStore = (.message 403 "Forbidden", sampleStore)
      ∧ deletePost (some strangerUser) sampleId sampleStore
        = (.message 403 "Forbidden", sampleStore) :=
  c1_forbidden_leaves_store jsonParseLite strangerUser none sampleId emptyBody
    sampleStore samplePost (by decide) rfl (by decide) (by decide)

/-- C2: with no authenticated caller attached, update answers 401 on an
existing post, and 404 when the well-formed id has no post. -/
theorem c2_update_unauthorized (parse : String → Option Json)
    (file : Option String) (id : String) (body : Body) (st : Store) (p : Post)
    (hid : isValidObjectId id = true) :
    (findPost st id = some p →
      updatePost parse none file id body st
        = (.message 401 "Unauthorized", st))
      ∧ (findPost st id = none →
        updatePost parse none file id body st
          = (.message 404 "Post not found", st)) := by
  constructor
  · intro hfind; unfold updatePost; simp [hid, hfind]
  · intro hfind; unfold updatePost; simp [hid, hfind]

/-- C2 witness: the sample post yields 401 for an unauthenticated update,
and the same id on an empty store yields 404. -/
theorem c2_update_unauthorized_witness :
    updatePost jsonParseLite none none sampleId emptyBody sampleStore
        = (.message 401 "Unauthorized", sampleStore)
      ∧ updatePost jsonParseLite none none sampleId emptyBody []
        = (.message 404 "Post not found", []) :=
  ⟨(c2_update_unauthorized jsonParseLite none sampleId emptyBody sampleStore
      samplePost (by decide)).1 rfl,
   (c2_update_unauthorized jsonParseLite none sampleId emptyBody []
      samplePost (by decide)).2 rfl⟩

/-- C3: a create request missing any one of title, content, category or
seo fails with 400 and creates nothing, whatever the other fields hold. -/
theorem c3_create_missing_required (parse : String → Option Json)
    (user : Option AuthUser) (file : Option String) (body : Body)
    (newId : String) (st : Store)
    (h : body.title = none ∨ body.content = none ∨ body.category = none
      ∨ body.seo = none) :
    addPost parse user file body newId st
      = (.message 400 "title, content, category and seo are required", st) := by
  have hm : requiredMissing body = true := by
    unfold requiredMissing
    rcases h with h | h | h | h <;> simp [h, truthyOpt]
  unfold addPost
  simp [hm]

/-- A create body whose title is absent while every other field is fine. -/
def noTitleBody : Body :=
  { emptyBody with
    content := some (.str "Some content")
    category := some (.str "cat0")
    seo := some (.obj [("metaTitle", .str "x")]) }

/-- C3 witness: creating with everything but the title supplied returns the
required-fields 400 and the empty store stays empty. -/
theorem c3_create_missing_required_witness :
    addPost jsonParseLite none none noTitleBody sampleId []
      = (.message 400 "title, content, category and seo are required", []) :=
  c3_create_missing_required jsonParseLite none none noTitleBody sampleId []
    (Or.inl rfl)

/-- C9: deleting a well-formed id with no post answers 404 (for any
caller), and an authorized owner deleting the same existing post twice
succeeds once and then gets 404. -/
theorem c9_delete_notfound_twice (user : Option AuthUser) (u : AuthUser)
    (id : String) (st : Store) (p : Post)
    (hid : isValidObjectId id = true) :
    (findPost st id = none →
      deletePost user id st = (.message 404 "Post not found", st))
      ∧ (findPost st id = some p → u.id = p.author →
        deletePost (some u) id st
            = (.message 200 "Post deleted", deleteById st id)
          ∧ deletePost (some u) id (deleteById st id)
            = (.message 404 "Post not found", deleteById st id)) := by
  constructor
  · intro hfind
    unfold deletePost
    simp [hid, hfind]
  · intro hfind hownr
    have hb : (u.role != "admin" && p.author != u.id) = false := by
      simp [hownr]
    refine ⟨?_, ?_⟩
    · unfold deletePost; simp [hid, hfind, hb]
    · unfold deletePost; simp [hid, findPost_deleteById st id]

/-- C9 witness: deleting `sampleId` from the empty store gives 404, and the
owner deleting the sample post twice gets 200 then 404. -/
theorem c9_delete_notfound_twice_witness :
    deletePost (some ownerUser) sampleId []
        = (.message 404 "Post not found", [])
      ∧ deletePost (some ownerUser) sampleId sampleStore
          = (.message 200 "Post deleted", deleteById sampleStore sampleId)
        ∧ deletePost (some ownerUser) sampleId (deleteById sampleStore sampleId)
          = (.message 404 "Post not found", deleteById sampleStore sampleId) :=
  ⟨(c9_delete_notfound_twice (some ownerUser) ownerUser sampleId [] samplePost
      (by decide)).1 rfl,
   (c9_delete_notfound_twice (some ownerUser) ownerUser sampleId sampleStore
      samplePost (by decide)).2 rfl rfl⟩

/-- C10: on a well-formed id with no matching post, update and delete both
answer 404 even with no authenticated caller attached — the existence
lookup runs before the authentication and ownership checks. -/
theorem c10_unauthenticated_probe (parse : String → Option Json)
    (file : Option String) (id : String) (body : Body) (st : Store)
    (hid : isValidObjectId id = true) (habs : findPost st id = none) :
    updatePost parse none file id body st = (.message 404 "Post not found", st)
      ∧ deletePost none id st = (.message 404 "Post not found", st) := by
  constructor
  · unfold updatePost; simp [hid, habs]
  · unfold deletePost; simp [hid, habs]

/-- C10 witness: the sample id on the empty store yields 404 for both
operations with no caller attached. -/
theorem c10_unauthenticated_probe_witness :
    updatePost jsonParseLite none none sampleId emptyBody []
        = (.message 404 "Post not found", [])
      ∧ deletePost none sampleId [] = (.message 404 "Post not found", []) :=
  c10_unauthenticated_probe jsonParseLite none sampleId emptyBody []
    (by decide) rfl

/-- A valid create body: required fields present, slug and tags omitted. -/
def okBody : Body :=
  { title := some (.str "Hello World")
    slug := none
    content := some (.str "Body text")
    category := some (.str "cat0")
    tags := none
    seo := some (.obj [("metaTitle", .str "x")])
    published := none }

/-- An authenticated caller whose id is the empty string. -/
def emptyIdUser : AuthUser := { id := "", role := "author" }

/-- C7: a successful create sets the author to the caller identity when a
usable one is attached (non-empty id), and to the fixed fallback id when no
caller is attached or the attached id is empty. -/
theorem c7_author_fallback (parse : String → Option Json) (u uBlank : AuthUser)
    (file : Option String) (body : Body) (newId : String) (st : Store)
    (jt js : Json) (hreq : requiredMissing body = false)
    (ht : parseTagsField parse body.tags = .ok jt)
    (hsf : parseSeoField parse body.seo = .ok js)
    (hu : u.id ≠ "") (hblank : uBlank.id = "") :
    ((addPost parse (some u) file body newId st).1.payload.map Post.author
        = some u.id)
      ∧ ((addPost parse none file body newId st).1.payload.map Post.author
        = some fallbackAuthorId)
      ∧ ((addPost parse (some uBlank) file body newId st).1.payload.map
          Post.author = some fallbackAuthorId) := by
  refine ⟨?_, ?_, ?_⟩ <;>
    rw [addPost_ok parse _ file body newId st jt js hreq ht hsf]
  · simp [Resp.payload, createdPost, authorOf, hu]
  · simp [Resp.payload, createdPost, authorOf]
  · simp [Resp.payload, createdPost, authorOf, hblank]

/-- C7 witness: creating the sample body as `ownerUser` stores their id as
author; creating it with no caller, or as a caller with an empty id, stores
the hardcoded fallback id. -/
theorem c7_author_fallback_witness :
    ((addPost jsonParseLite (some ownerUser) none okBody sampleId []).1.payload.map
        Post.author = some ownerUser.id)
      ∧ ((addPost jsonParseLite none none okBody sampleId []).1.payload.map
        Post.author = some fallbackAuthorId)
      ∧ ((addPost jsonParseLite (some emptyIdUser) none okBody sampleId
          []).1.payload.map Post.author = some fallbackAuthorId) :=
  c7_author_fallback jsonParseLite ownerUser emptyIdUser none okBody sampleId []
    (.arr []) (.obj [("metaTitle", .str "x")]) rfl rfl rfl (by decide) rfl

/-- C8: on a successful create the stored published flag is true exactly
when the supplied value is the boolean true or the string "true" (absent or
anything else gives false); on a successful update the flag changes only
when the field is supplied, under the same coercion. -/
theorem c8_published_coercion (parse : String → Option Json)
    (user : Option AuthUser) (u : AuthUser) (file ufile : Option String)
    (body ubody : Body) (newId id : String) (st ust : Store) (jt js : Json)
    (p q : Post)
    (hreq : requiredMissing body = false)
    (ht : parseTagsField parse body.tags = .ok jt)
    (hsf : parseSeoField parse body.seo = .ok js)
    (hid : isValidObjectId id = true) (hfind : findPost ust id = some p)
    (hauth : (u.role != "admin" && p.author != u.id) = false)
    (hap : applyBody parse ubody ufile p = .ok q) :
    (((addPost parse user file body newId st).1.payload.map Post.published
        = some true)
      ↔ (body.published = some (.str "true")
        ∨ body.published = some (.bool true)))
      ∧ updatePost parse (some u) ufile id ubody ust
        = (.post 200 q, savePost ust id q)
      ∧ (ubody.published = none → q.published = p.published)
      ∧ (∀ j, ubody.published = some j →
        (q.published = true ↔ j = .str "true" ∨ j = .bool true)) := by
  have hpub :
      q.published = (if ubody.published.isSome then pubCoerce ubody.published
        else p.published) :=
    (applyBody_fields parse ubody ufile p q hap).2.2.2.2.2.1
  refine ⟨?_, ?_, ?_, ?_⟩
  · rw [addPost_ok parse user file body newId st jt js hreq ht hsf]
    simp only [Resp.payload, Option.map_some', createdPost, Option.some.injEq]
    exact pubCoerce_true_iff body.published
  · exact updatePost_ok parse u ufile id ubody ust p q hid hfind hauth hap
  · intro hnone
    rw [hpub, hnone]
    rfl
  · intro j hj
    rw [hpub, hj]
    simpa using pubCoerce_true_iff (some j)

/-- A body that only turns publication on, via the string "true". -/
def publishBody : Body := { emptyBody with published := some (.str "true") }

/-- C8 witness: creating `okBody` with published supplied as the string
"true" stores true; updating the sample post with only a published field
flips the stored flag under the same coercion. -/
theorem c8_published_coercion_witness :
    (((addPost jsonParseLite none none
          { okBody with published := some (.str "true") } sampleId
          []).1.payload.map Post.published = some true)
      ↔ ({ okBody with published := some (.str "true") } : Body).published
          = some (.str "true")
        ∨ ({ okBody with published := some (.str "true") } : Body).published
          = some (.bool true))
      ∧ updatePost jsonParseLite (some ownerUser) none sampleId publishBody
          sampleStore
        = (.post 200 { samplePost with published := true },
           savePost sampleStore sampleId { samplePost with published := true })
      ∧ (publishBody.published = none →
        ({ samplePost with published := true } : Post).published
          = samplePost.published)
      ∧ (∀ j, publishBody.published = some j →
        (({ samplePost with published := true } : Post).published = true
          ↔ j = .str "true" ∨ j = .bool true)) :=
  c8_published_coercion jsonParseLite none ownerUser none none
    { okBody with published := some (.str "true") } publishBody sampleId
    sampleId [] sampleStore (.arr []) (.obj [("metaTitle", .str "x")])
    samplePost { samplePost with published := true }
    rfl rfl rfl (by decide) rfl (by decide) rfl

/-- The `okBody` create request with an explicitly supplied empty slug. -/
def emptySlugBody : Body := { okBody with slug := some (.str "") }

/-- The document the code stores for `emptySlugBody` with no caller. -/
def emptySlugCreated : Post :=
  { title := .str "Hello World"
    slug := .str "hello-world"
    content := .str "Body text"
    author := fallbackAuthorId
    category := .str "cat0"
    tags := .arr []
    seo := .obj [("metaTitle", .str "x")]
    featuredImage := none
    published := false }

/-- C6 counterexample: a create request that supplies the explicit slug ""
succeeds, but the created slug is "hello-world", derived from the title —
not the supplied value verbatim.  The truthiness test `slug ? ... : ...`
treats the supplied empty string as absent. -/
theorem c6_counterexample :
    addPost jsonParseLite none none emptySlugBody sampleId []
        = (.post 201 emptySlugCreated, [(sampleId, emptySlugCreated)])
      ∧ emptySlugBody.slug = some (.str "")
      ∧ emptySlugCreated.slug = .str "hello-world"
      ∧ Json.str "hello-world" ≠ Json.str "" := by
  refine ⟨rfl, rfl, rfl, ?_⟩
  simp

/-- C6 amended: on a successful create, a supplied non-empty string slug is
stored verbatim, and an omitted slug is derived from the (string) title by
the slug generator; a supplied empty slug falls into the derived case. -/
theorem c6_slug_amended (parse : String → Option Json) (user : Option AuthUser)
    (file : Option String) (body : Body) (newId : String) (st : Store)
    (jt js : Json) (s t : String)
    (hreq : requiredMissing body = false)
    (ht : parseTagsField parse body.tags = .ok jt)
    (hsf : parseSeoField parse body.seo = .ok js)
    (htitle : body.title = some (.str t)) :
    (body.slug = some (.str s) → s ≠ "" →
      (addPost parse user file body newId st).1.payload.map Post.slug
        = some (.str s))
      ∧ (body.slug = none →
        (addPost parse user file body newId st).1.payload.map Post.slug
          = some (.str (generateSlug t))) := by
  rw [addPost_ok parse user file body newId st jt js hreq ht hsf]
  constructor
  · intro hslug hsne
    simp [Resp.payload, createdPost, finalSlug, hslug, truthyOpt, jsTruthy,
      hsne, jsToString]
  · intro hslug
    simp [Resp.payload, createdPost, finalSlug, hslug, truthyOpt, htitle,
      jsToString]

/-- The `okBody` create request with an explicit non-empty slug. -/
def slugBody : Body := { okBody with slug := some (.str "my-slug") }

/-- C6 witness: a create with the explicit slug "my-slug" stores it
verbatim, and a create omitting the slug stores the slug derived from the
title "Hello World". -/
theorem c6_slug_amended_witness :
    ((addPost jsonParseLite none none slugBody sampleId []).1.payload.map
        Post.slug = some (.str "my-slug"))
      ∧ ((addPost jsonParseLite none none okBody sampleId []).1.payload.map
        Post.slug = some (.str (generateSlug "Hello World"))) :=
  ⟨(c6_slug_amended jsonParseLite none none slugBody sampleId [] (.arr [])
      (.obj [("metaTitle", .str "x")]) "my-slug" "Hello World"
      rfl rfl rfl rfl).1 rfl (by decide),
   (c6_slug_amended jsonParseLite none none okBody sampleId [] (.arr [])
      (.obj [("metaTitle", .str "x")]) "my-slug" "Hello World"
      rfl rfl rfl rfl).2 rfl⟩

/-- An update body whose tags field is the empty string. -/
def emptyTagsBody : Body := { emptyBody with tags := some (.str "") }

/-- C4 counterexample: the empty string is not valid JSON
(`JSON.parse("")` throws; the model parser rejects it), yet an authorized
update whose tags field is "" is not answered with 400 — it succeeds with
200, because the truthiness guard `if (tags)` skips the falsy empty
string before any parsing. -/
theorem c4_counterexample :
    jsonParseLite "" = none
      ∧ emptyTagsBody.tags = some (.str "")
      ∧ updatePost jsonParseLite (some ownerUser) none sampleId emptyTagsBody
          sampleStore
        = (.post 200 samplePost, savePost sampleStore sampleId samplePost) :=
  ⟨rfl, rfl, rfl⟩

/-- C4 amended: for a create request that passes the required-field check
and for an authorized update of an existing post, a tags or seo field
supplied as a NON-EMPTY string that is not valid JSON makes the operation
return 400 naming the offending field, with no write to the store (for the
seo scenarios the tags field is absent, so the tags check cannot fire
first).  A supplied empty string is skipped by the truthiness guard
instead, as the counterexample shows. -/
theorem c4_bad_json_amended (parse : String → Option Json) (s : String)
    (userA userB : Option AuthUser) (u : AuthUser)
    (fA fB fC fD : Option String) (newIdA newIdB idC idD : String)
    (bodyA bodyB bodyC bodyD : Body) (stA stB stC stD : Store) (pC pD : Post)
    (hs : s ≠ "") (hp : parse s = none)
    (hreqA : requiredMissing bodyA = false)
    (htagsA : bodyA.tags = some (.str s))
    (hreqB : requiredMissing bodyB = false) (htagsB : bodyB.tags = none)
    (hseoB : bodyB.seo = some (.str s))
    (hidC : isValidObjectId idC = true) (hfindC : findPost stC idC = some pC)
    (hauthC : (u.role != "admin" && pC.author != u.id) = false)
    (htagsC : bodyC.tags = some (.str s))
    (hidD : isValidObjectId idD = true) (hfindD : findPost stD idD = some pD)
    (hauthD : (u.role != "admin" && pD.author != u.id) = false)
    (htagsD : bodyD.tags = none) (hseoD : bodyD.seo = some (.str s)) :
    addPost parse userA fA bodyA newIdA stA
        = (.message 400 "Invalid tags JSON", stA)
      ∧ addPost parse userB fB bodyB newIdB stB
        = (.message 400 "Invalid SEO JSON", stB)
      ∧ updatePost parse (some u) fC idC bodyC stC
        = (.message 400 "Invalid tags JSON", stC)
      ∧ updatePost parse (some u) fD idD bodyD stD
        = (.message 400 "Invalid SEO JSON", stD) := by
  refine ⟨?_, ?_, ?_, ?_⟩
  · unfold addPost
    simp [hreqA, htagsA, parseTagsField_str_bad parse s hs hp]
  · have h1 : parseTagsField parse bodyB.tags = .ok (.arr []) := by
      rw [htagsB]
      exact parseTagsField_none parse
    have h2 : parseSeoField parse bodyB.seo = .error "Invalid SEO JSON" := by
      rw [hseoB]
      exact parseSeoField_str_bad parse s hp
    unfold addPost
    simp [hreqB, h1, h2]
  · have herr : applyBody parse bodyC fC pC = .error "Invalid tags JSON" :=
      applyBody_tags_error parse bodyC fC pC _
        (applyTags_of_str_bad parse bodyC (applyScalars bodyC pC) s htagsC hs hp)
    rw [updatePost_authed parse u fC idC bodyC stC pC hidC hfindC hauthC, herr]
  · have h1 : applyTags parse bodyD (applyScalars bodyD pD)
        = .ok (applyScalars bodyD pD) :=
      applyTags_of_falsy parse bodyD (applyScalars bodyD pD)
        (by rw [htagsD]; rfl)
    have h2 : applySeo parse bodyD (applyScalars bodyD pD)
        = .error "Invalid SEO JSON" :=
      applySeo_of_str_bad parse bodyD (applyScalars bodyD pD) s hseoD hs hp
    have herr := applyBody_seo_error parse bodyD fD pD
      (applyScalars bodyD pD) "Invalid SEO JSON" h1 h2
    rw [updatePost_authed parse u fD idD bodyD stD pD hidD hfindD hauthD, herr]

/-- Create body with required fields fine and tags the bad string. -/
def badTagsCreateBody : Body := { okBody with tags := some (.str "bad json") }

/-- Create body with required fields fine and seo the bad string. -/
def badSeoCreateBody : Body := { okBody with seo := some (.str "bad json") }

/-- Update body carrying only the bad tags string. -/
def badTagsUpdateBody : Body := { emptyBody with tags := some (.str "bad json") }

/-- Update body carrying only the bad seo string. -/
def badSeoUpdateBody : Body := { emptyBody with seo := some (.str "bad json") }

/-- C4 witness: the string "bad json" is rejected by the parser; create and
authorized update each answer 400 naming the offending field and leave the
store exactly as it was. -/
theorem c4_bad_json_amended_witness :
    addPost jsonParseLite none none badTagsCreateBody sampleId []
        = (.message 400 "Invalid tags JSON", [])
      ∧ addPost jsonParseLite none none badSeoCreateBody sampleId []
        = (.message 400 "Invalid SEO JSON", [])
      ∧ updatePost jsonParseLite (some ownerUser) none sampleId
          badTagsUpdateBody sampleStore
        = (.message 400 "Invalid tags JSON", sampleStore)
      ∧ updatePost jsonParseLite (some ownerUser) none sampleId
          badSeoUpdateBody sampleStore
        = (.message 400 "Invalid SEO JSON", sampleStore) :=
  c4_bad_json_amended jsonParseLite "bad json" none none ownerUser
    none none none none sampleId sampleId sampleId sampleId
    badTagsCreateBody badSeoCreateBody badTagsUpdateBody badSeoUpdateBody
    [] [] sampleStore sampleStore samplePost samplePost
    (by decide) rfl rfl rfl rfl rfl rfl
    (by decide) rfl (by decide) rfl
    (by decide) rfl (by decide) rfl rfl

/-- An update body that supplies the title field as the empty string. -/
def blankTitleBody : Body := { emptyBody with title := some (.str "") }

/-- C5 counterexample: an authorized update whose body supplies the title
field (as "") succeeds with 200, yet the stored title keeps its prior
value "Old title" instead of being overwritten with the supplied value:
the truthiness guard `if (title)` treats a falsy supplied field as
absent. -/
theorem c5_counterexample :
    blankTitleBody.title = some (.str "")
      ∧ updatePost jsonParseLite (some ownerUser) none sampleId blankTitleBody
          sampleStore
        = (.post 200 samplePost, savePost sampleStore sampleId samplePost)
      ∧ samplePost.title = .str "Old title"
      ∧ Json.str "Old title" ≠ Json.str "" := by
  refine ⟨rfl, rfl, rfl, ?_⟩
  simp

/-- C5 amended: for a successful authorized update, fields the body omits
keep their stored value, and truthy supplied fields overwrite (string
tags/seo are stored as their JSON parse, published under its coercion);
a falsy supplied value is treated as absent for title, slug, content,
category, tags and seo, while a supplied published always overwrites and
the author is never touched. -/
theorem c5_partial_update_amended (parse : String → Option Json) (u : AuthUser)
    (file : Option String) (id : String) (body : Body) (st : Store)
    (p q : Post) (ts ss : String) (tj tv sj sv : Json)
    (hid : isValidObjectId id = true) (hfind : findPost st id = some p)
    (hauth : (u.role != "admin" && p.author != u.id) = false)
    (hap : applyBody parse body file p = .ok q) :
    updatePost parse (some u) file id body st = (.post 200 q, savePost st id q)
      ∧ q.title
        = (if truthyOpt body.title then body.title.getD .null else p.title)
      ∧ q.slug = (if truthyOpt body.slug then body.slug.getD .null else p.slug)
      ∧ q.content
        = (if truthyOpt body.content then body.content.getD .null else p.content)
      ∧ q.category
        = (if truthyOpt body.category then body.category.getD .null
           else p.category)
      ∧ q.author = p.author
      ∧ q.published
        = (if body.published.isSome then pubCoerce body.published
           else p.published)
      ∧ q.featuredImage = (if truthyPath file then file else p.featuredImage)
      ∧ (truthyOpt body.tags = false → q.tags = p.tags)
      ∧ (body.tags = some (.str ts) → ts ≠ "" → parse ts = some tj →
        q.tags = tj)
      ∧ (body.tags = some tv → jsTruthy tv = true → tv.isStr = false →
        q.tags = tv)
      ∧ (truthyOpt body.seo = false → q.seo = p.seo)
      ∧ (body.seo = some (.str ss) → ss ≠ "" → parse ss = some sj →
        q.seo = sj)
      ∧ (body.seo = some sv → jsTruthy sv = true → sv.isStr = false →
        q.seo = sv) := by
  obtain ⟨f1, f2, f3, f4, f5, f6, f7⟩ := applyBody_fields parse body file p q hap
  obtain ⟨g1, g2, g3⟩ := applyBody_ok_tags parse body file p q hap
  obtain ⟨e1, e2, e3⟩ := applyBody_ok_seo parse body file p q hap
  exact ⟨updatePost_ok parse u file id body st p q hid hfind hauth hap,
    f1, f2, f3, f4, f5, f6, f7, g1,
    fun h hsne hp => g2 ts tj h hsne hp,
    fun h htr hstr => g3 tv h htr hstr, e1,
    fun h hsne hp => e2 ss sj h hsne hp,
    fun h htr hstr => e3 sv h htr hstr⟩

/-- An update body mixing omitted, falsy-supplied and truthy fields. -/
def mixedBody : Body :=
  { title := some (.str "New title")
    slug := none
    content := some (.str "")
    category := none
    tags := some (.str "[]")
    seo := none
    published := some (.str "true") }

/-- The document stored after applying `mixedBody` (and an uploaded file)
to `samplePost`: title, tags, published and featuredImage change; the
omitted slug and category and the falsy-supplied content do not. -/
def mixedUpdated : Post :=
  { title := .str "New title"
    slug := .str "old-title"
    content := .str "Old content"
    author := "aaaaaaaaaaaaaaaaaaaaaaaa"
    category := .str "cat0"
    tags := .arr []
    seo := .obj []
    featuredImage := some "uploads/img.png"
    published := true }

/-- C5 witness: the owner updating the sample post with `mixedBody` and an
uploaded file gets exactly `mixedUpdated` stored, matching the amended
per-field characterization at these concrete values. -/
theorem c5_partial_update_amended_witness :
    updatePost jsonParseLite (some ownerUser) (some "uploads/img.png") sampleId
        mixedBody sampleStore
      = (.post 200 mixedUpdated, savePost sampleStore sampleId mixedUpdated)
      ∧ mixedUpdated.title
        = (if truthyOpt mixedBody.title then mixedBody.title.getD .null
           else samplePost.title)
      ∧ mixedUpdated.slug
        = (if truthyOpt mixedBody.slug then mixedBody.slug.getD .null
           else samplePost.slug)
      ∧ mixedUpdated.content
        = (if truthyOpt mixedBody.content then mixedBody.content.getD .null
           else samplePost.content)
      ∧ mixedUpdated.category
        = (if truthyOpt mixedBody.category then mixedBody.category.getD .null
           else samplePost.category)
      ∧ mixedUpdated.author = samplePost.author
      ∧ mixedUpdated.published
        = (if mixedBody.published.isSome then pubCoerce mixedBody.published
           else samplePost.published)
      ∧ mixedUpdated.featuredImage
        = (if truthyPath (some "uploads/img.png") then some "uploads/img.png"
           else samplePost.featuredImage)
      ∧ (truthyOpt mixedBody.tags = false →
        mixedUpdated.tags = samplePost.tags)
      ∧ (mixedBody.tags = some (.str "[]") → "[]" ≠ "" →
        jsonParseLite "[]" = some (.arr []) → mixedUpdated.tags = .arr [])
      ∧ (mixedBody.tags = some (.arr []) → jsTruthy (.arr []) = true →
        Json.isStr (.arr []) = false → mixedUpdated.tags = .arr [])
      ∧ (truthyOpt mixedBody.seo = false → mixedUpdated.seo = samplePost.seo)
      ∧ (mixedBody.seo = some (.str "x") → "x" ≠ "" →
        jsonParseLite "x" = some .null → mixedUpdated.seo = .null)
      ∧ (mixedBody.seo = some .null → jsTruthy .null = true →
        Json.isStr .null = false → mixedUpdated.seo = .null) :=
  c5_partial_update_amended jsonParseLite ownerUser (some "uploads/img.png")
    sampleId mixedBody sampleStore samplePost mixedUpdated "[]" "x"
    (.arr []) (.arr []) .null .null
    (by decide) rfl rfl rfl

end Blog
